import Mathlib

/-!
# simple_msi_bootstrapper: a shallow embedding of `main.cpp`

The program is a Win32 bootstrapper: it probes the Windows Installer
(`getMsiVersion`), resolves the package path next to the executable
(`getMsiFile`), checks that the file exists (`isFileExists`), binds `msi.dll`
dynamically (`MsiDll`) and installs the package (`executeMsiFile`, `WinMain`).

Every Win32 call is a field of `Platform`: the outcome the operating system
gives for the arguments the program passes.  Every function of the source is a
`Run`: the value it returns (or `none` when the execution dereferences a null
pointer) together with the Win32 calls it made, in order.
-/

namespace SimpleMsiBootstrapper

/-! ## Win32 types and constants -/

/-- The type `tstring` of the source: `std::string` or `std::wstring`, a sequence of `TCHAR`. -/
abbrev tstring := String

/-- An unsigned 32-bit value as the platform reports it. -/
abbrev DWORD := Nat

/-- A module handle; `0` is `NULL`. -/
abbrev HMODULE := Nat

/-- A procedure address; `0` is `NULL`. -/
abbrev FARPROC := Nat

/-- The Win32 constant `MAX_PATH`. -/
def MAX_PATH : Nat := 260

/-- The Win32 constant `MB_OK`. -/
def MB_OK : Nat := 0

/-- The constant `INSTALLUILEVEL_FULL` of `msi.h`. -/
def INSTALLUILEVEL_FULL : Nat := 5

/-- The value `(DWORD)-1`, which `GetFileAttributes` returns on failure. -/
def INVALID_FILE_ATTRIBUTES : Nat := 4294967295

/-- The Win32 structure `VS_FIXEDFILEINFO`: thirteen `DWORD` fields. -/
structure VS_FIXEDFILEINFO where
  dwSignature : DWORD
  dwStrucVersion : DWORD
  dwFileVersionMS : DWORD
  dwFileVersionLS : DWORD
  dwProductVersionMS : DWORD
  dwProductVersionLS : DWORD
  dwFileFlagsMask : DWORD
  dwFileFlags : DWORD
  dwFileOS : DWORD
  dwFileType : DWORD
  dwFileSubtype : DWORD
  dwFileDateMS : DWORD
  dwFileDateLS : DWORD
deriving DecidableEq, Repr

/-- The value of `sizeof(VS_FIXEDFILEINFO)`: thirteen fields of four bytes. -/
def sizeof_VS_FIXEDFILEINFO : Nat := 13 * 4

/-- Conversion of a `DWORD` to the 32-bit `int` a function declared `int` returns. -/
def toInt (v : DWORD) : Int :=
  if v % 2 ^ 32 < 2 ^ 31 then ((v % 2 ^ 32 : Nat) : Int) else ((v % 2 ^ 32 : Nat) : Int) - 2 ^ 32

/-! ## Build configuration, platform and observable events -/

/-- What is fixed when the program is compiled: whether `_UNICODE` is defined, and the
resource identifier `IDS_MSI_FILENAME` declared in `resource.h`. -/
structure Build where
  UNICODE : Bool
  IDS_MSI_FILENAME : Nat

/-- The outcome of every Win32 call the program makes, as a function of the arguments.
A buffer the call fills is given as the C string the program reads from it afterwards. -/
structure Platform where
  /-- Gives `uSize ↦ (return value, lpBuffer)`. -/
  GetSystemDirectory : Nat → DWORD × tstring
  /-- Gives `lpFileName ↦ handle`. -/
  LoadLibrary : tstring → HMODULE
  /-- Gives `hModule, lpProcName ↦ address`. -/
  GetProcAddress : HMODULE → String → FARPROC
  /-- Gives `lptstrFilename ↦ (return value, *lpdwHandle)`. -/
  GetFileVersionInfoSize : tstring → DWORD × DWORD
  /-- Gives `lptstrFilename, dwHandle, dwLen ↦ (return value, lpData)`. -/
  GetFileVersionInfo : tstring → DWORD → DWORD → Bool × List Nat
  /-- Gives `pBlock, lpSubBlock ↦ (return value, **lplpBuffer, *puLen)`. -/
  VerQueryValue : List Nat → tstring → Bool × VS_FIXEDFILEINFO × Nat
  /-- Gives `hModule, nSize ↦ (return value, lpFilename)`. -/
  GetModuleFileName : HMODULE → Nat → DWORD × tstring
  /-- Gives `lpFileName, nBufferLength ↦ (return value, lpBuffer, *lpFilePart)`, the file part
  as its offset in the buffer, `none` when the call leaves the pointer null. -/
  GetFullPathName : tstring → Nat → DWORD × tstring × Option Nat
  /-- Gives `lpFileName ↦ attributes`. -/
  GetFileAttributes : tstring → DWORD
  /-- Gives `GetModuleHandle(NULL)`. -/
  GetModuleHandle : HMODULE
  /-- Gives `hInstance, uID, cchBufferMax ↦ (return value, lpBuffer)`. -/
  LoadString : HMODULE → Nat → Nat → Int × tstring
  /-- Gives the result of the entry point at `pfn` called as `MsiSetInternalUI(dwUILevel, phWnd)`. -/
  MsiSetInternalUI : FARPROC → Nat → Nat → Nat
  /-- Gives the result of the entry point at `pfn` called as `MsiInstallProduct(path, commandLine)`. -/
  MsiInstallProduct : FARPROC → tstring → tstring → Nat

/-- A call that leaves the program: a Win32 call, or a call through a bound pointer. -/
inductive Event where
  | GetSystemDirectory (uSize : Nat)
  | LoadLibrary (lpFileName : tstring)
  | FreeLibrary (hModule : HMODULE)
  | GetProcAddress (hModule : HMODULE) (lpProcName : String)
  | GetFileVersionInfoSize (lptstrFilename : tstring)
  | GetFileVersionInfo (lptstrFilename : tstring) (dwHandle dwLen : DWORD)
  | VerQueryValue (pBlock : List Nat) (lpSubBlock : tstring)
  | GetModuleFileName (hModule : HMODULE) (nSize : Nat)
  | GetFullPathName (lpFileName : tstring) (nBufferLength : Nat)
  | GetFileAttributes (lpFileName : tstring)
  | GetModuleHandle
  | LoadString (hInstance : HMODULE) (uID : Nat) (cchBufferMax : Nat)
  | MessageBox (lpText lpCaption : tstring) (uType : Nat)
  | MsiSetInternalUI (pfn : FARPROC) (dwUILevel : Nat) (phWnd : Nat)
  | MsiInstallProduct (pfn : FARPROC) (szPackagePath szCommandLine : tstring)
deriving DecidableEq, Repr

/-- An execution: the returned value, `none` when the execution dereferenced a null pointer,
and the calls made up to that point, oldest first. -/
structure Run (α : Type) where
  value : Option α
  events : List Event
deriving DecidableEq

/-- An execution that makes no call. -/
def Run.ret {α : Type} (a : α) : Run α := ⟨some a, []⟩

/-- An execution that stops at a null dereference. -/
def Run.undefined {α : Type} : Run α := ⟨none, []⟩

/-- One call `e` whose outcome is `a`. -/
def Run.call {α : Type} (e : Event) (a : α) : Run α := ⟨some a, [e]⟩

/-- Sequencing: `f` runs after `x` unless `x` stopped. -/
def Run.bind {α β : Type} (x : Run α) (f : α → Run β) : Run β :=
  match x.value with
  | none => ⟨none, x.events⟩
  | some a => ⟨(f a).value, x.events ++ (f a).events⟩

instance : Monad Run where
  pure := Run.ret
  bind := Run.bind

/-! ## Win32 Utility -/

/-- The source's `getSystemDirectory`. -/
def getSystemDirectory (P : Platform) : Run tstring := do
  let (systemDirLen, systemDir) ← Run.call (Event.GetSystemDirectory MAX_PATH) (P.GetSystemDirectory MAX_PATH)
  if systemDirLen = 0 ∨ systemDirLen > MAX_PATH then
    pure ""
  else
    pure systemDir

/-- The source's `getFileVersionNumberMS`. -/
def getFileVersionNumberMS (P : Platform) (pathFile : tstring) (dwErrorVersion : DWORD) : Run DWORD := do
  let (versionInfoSize, handle) ←
    Run.call (Event.GetFileVersionInfoSize pathFile) (P.GetFileVersionInfoSize pathFile)
  if versionInfoSize > 0 then
    let (ok, versionInfoData) ←
      Run.call (Event.GetFileVersionInfo pathFile handle versionInfoSize)
        (P.GetFileVersionInfo pathFile handle versionInfoSize)
    if ok then
      let (found, fixedFileInfo, fixedFileInfoSize) ←
        Run.call (Event.VerQueryValue versionInfoData "\\") (P.VerQueryValue versionInfoData "\\")
      if found then
        if fixedFileInfoSize ≥ sizeof_VS_FIXEDFILEINFO then
          pure fixedFileInfo.dwFileVersionMS
        else
          pure dwErrorVersion
      else
        pure dwErrorVersion
    else
      pure dwErrorVersion
  else
    pure dwErrorVersion

/-- The source's `getCurrentModulePath`. -/
def getCurrentModulePath (P : Platform) : Run tstring := do
  let bufferSize := MAX_PATH
  let (pathLen, buffer) ← Run.call (Event.GetModuleFileName 0 bufferSize) (P.GetModuleFileName 0 bufferSize)
  if pathLen ≥ bufferSize then
    pure ""
  else
    pure buffer

/-- The source's `getFullPathName` (no call site in the program). -/
def getFullPathName (P : Platform) (path : tstring) : Run tstring := do
  let bufferSize := MAX_PATH
  let (pathLen, buffer, _) ←
    Run.call (Event.GetFullPathName path bufferSize) (P.GetFullPathName path bufferSize)
  if pathLen ≥ bufferSize then
    pure ""
  else
    pure buffer

/-- The source's `getFullPathDirectoryPart`: the write `*filePartPtr = 0` cuts the buffer at
the file part, and is a null dereference when the call left the pointer null. -/
def getFullPathDirectoryPart (P : Platform) (path : tstring) : Run tstring := do
  let bufferSize := MAX_PATH
  let (pathLen, buffer, filePartPtr) ←
    Run.call (Event.GetFullPathName path bufferSize) (P.GetFullPathName path bufferSize)
  if pathLen ≥ bufferSize then
    pure ""
  else
    match filePartPtr with
    | none => Run.undefined
    | some offset => pure (String.mk (buffer.data.take offset))

/-- The source's `isFileExists`. -/
def isFileExists (P : Platform) (path : tstring) : Run Bool := do
  let attributes ← Run.call (Event.GetFileAttributes path) (P.GetFileAttributes path)
  pure (decide (attributes ≠ INVALID_FILE_ATTRIBUTES))

/-- The source's `loadStringResource`: the buffer starts zeroed and the return value of
`LoadString` is not looked at. -/
def loadStringResource (P : Platform) (resourceId : Nat) : Run tstring := do
  let bufferSize := MAX_PATH
  let hInstance ← Run.call Event.GetModuleHandle P.GetModuleHandle
  let (_, buffer) ←
    Run.call (Event.LoadString hInstance resourceId bufferSize) (P.LoadString hInstance resourceId bufferSize)
  pure buffer

/-- The caption of every message box. -/
def errorCaption : tstring := "エラー"

/-- The source's `reportError`. -/
def reportError (str : tstring) : Run Unit :=
  Run.call (Event.MessageBox str errorCaption MB_OK) ()

/-! ## MSI Utility -/

/-- The source's `getMsiVersion`. -/
def getMsiVersion (P : Platform) : Run Int := do
  let pathSystemDir ← getSystemDirectory P
  if pathSystemDir = "" then
    pure 0
  else
    let pathMsiDll := pathSystemDir ++ "\\MSI.DLL"
    let hinstMsiDll ← Run.call (Event.LoadLibrary pathMsiDll) (P.LoadLibrary pathMsiDll)
    if hinstMsiDll = 0 then
      pure 0
    else
      Run.call (Event.FreeLibrary hinstMsiDll) ()
      let version ← getFileVersionNumberMS P pathMsiDll 0
      pure (toInt version)

/-- The build-time macro `MSIAPI_SUFFIX`. -/
def MSIAPI_SUFFIX (B : Build) : String := if B.UNICODE then "W" else "A"

/-- The source's class `MsiDll`: the two state members and one pointer per `DEFMEMBER`. -/
structure MsiDll where
  error_ : Bool
  hMsi_ : HMODULE
  pfnMsiSetInternalUI : FARPROC
  pfnMsiInstallProduct : FARPROC
  pfnMsiApplyPatch : FARPROC
  pfnMsiReinstallProduct : FARPROC
  pfnMsiQueryProductState : FARPROC
  pfnMsiOpenDatabase : FARPROC
  pfnMsiDatabaseOpenView : FARPROC
  pfnMsiViewExecute : FARPROC
  pfnMsiViewFetch : FARPROC
  pfnMsiRecordGetString : FARPROC
  pfnMsiCloseHandle : FARPROC
deriving DecidableEq, Repr

/-- The source's `MsiDll::getProcAddress`, on the members `hMsi_` and `error_` it reads and
writes: the address found and the new value of `error_`. -/
def MsiDll.getProcAddress (P : Platform) (hMsi_ : HMODULE) (error_ : Bool) (name : String) :
    Run (FARPROC × Bool) :=
  if hMsi_ ≠ 0 then do
    let pf ← Run.call (Event.GetProcAddress hMsi_ name) (P.GetProcAddress hMsi_ name)
    if pf ≠ 0 then
      pure (pf, error_)
    else
      pure (0, true)
  else
    pure (0, true)

/-- The source's constructor `MsiDll::MsiDll`: the members are initialised in the order of
their declaration, `error_` and `hMsi_` first, then the pointer of each `DEFMEMBER`. -/
def MsiDll.new (B : Build) (P : Platform) : Run MsiDll := do
  let error_ := false
  let hMsi_ ← Run.call (Event.LoadLibrary "msi.dll") (P.LoadLibrary "msi.dll")
  let (pfnMsiSetInternalUI, error_) ← MsiDll.getProcAddress P hMsi_ error_ "MsiSetInternalUI"
  let (pfnMsiInstallProduct, error_) ←
    MsiDll.getProcAddress P hMsi_ error_ ("MsiInstallProduct" ++ MSIAPI_SUFFIX B)
  let (pfnMsiApplyPatch, error_) ←
    MsiDll.getProcAddress P hMsi_ error_ ("MsiApplyPatch" ++ MSIAPI_SUFFIX B)
  let (pfnMsiReinstallProduct, error_) ←
    MsiDll.getProcAddress P hMsi_ error_ ("MsiReinstallProduct" ++ MSIAPI_SUFFIX B)
  let (pfnMsiQueryProductState, error_) ←
    MsiDll.getProcAddress P hMsi_ error_ ("MsiQueryProductState" ++ MSIAPI_SUFFIX B)
  let (pfnMsiOpenDatabase, error_) ←
    MsiDll.getProcAddress P hMsi_ error_ ("MsiOpenDatabase" ++ MSIAPI_SUFFIX B)
  let (pfnMsiDatabaseOpenView, error_) ←
    MsiDll.getProcAddress P hMsi_ error_ ("MsiDatabaseOpenView" ++ MSIAPI_SUFFIX B)
  let (pfnMsiViewExecute, error_) ← MsiDll.getProcAddress P hMsi_ error_ "MsiViewExecute"
  let (pfnMsiViewFetch, error_) ← MsiDll.getProcAddress P hMsi_ error_ "MsiViewFetch"
  let (pfnMsiRecordGetString, error_) ←
    MsiDll.getProcAddress P hMsi_ error_ ("MsiRecordGetString" ++ MSIAPI_SUFFIX B)
  let (pfnMsiCloseHandle, error_) ← MsiDll.getProcAddress P hMsi_ error_ "MsiCloseHandle"
  pure
    { error_ := error_, hMsi_ := hMsi_,
      pfnMsiSetInternalUI := pfnMsiSetInternalUI,
      pfnMsiInstallProduct := pfnMsiInstallProduct,
      pfnMsiApplyPatch := pfnMsiApplyPatch,
      pfnMsiReinstallProduct := pfnMsiReinstallProduct,
      pfnMsiQueryProductState := pfnMsiQueryProductState,
      pfnMsiOpenDatabase := pfnMsiOpenDatabase,
      pfnMsiDatabaseOpenView := pfnMsiDatabaseOpenView,
      pfnMsiViewExecute := pfnMsiViewExecute,
      pfnMsiViewFetch := pfnMsiViewFetch,
      pfnMsiRecordGetString := pfnMsiRecordGetString,
      pfnMsiCloseHandle := pfnMsiCloseHandle }

/-- The source's destructor `MsiDll::~MsiDll`. -/
def MsiDll.delete (msi : MsiDll) : Run Unit :=
  if msi.hMsi_ ≠ 0 then
    Run.call (Event.FreeLibrary msi.hMsi_) ()
  else
    pure ()

/-- The source's `MsiDll::hasError`. -/
def MsiDll.hasError (msi : MsiDll) : Bool :=
  msi.hMsi_ == 0 || msi.error_

/-- The wrapper `MsiDll::MsiSetInternalUI`: a call through `pfnMsiSetInternalUI`, a null
dereference when the pointer is null. -/
def MsiDll.MsiSetInternalUI (P : Platform) (msi : MsiDll) (dwUILevel phWnd : Nat) : Run Nat :=
  if msi.pfnMsiSetInternalUI = 0 then
    Run.undefined
  else
    Run.call (Event.MsiSetInternalUI msi.pfnMsiSetInternalUI dwUILevel phWnd)
      (P.MsiSetInternalUI msi.pfnMsiSetInternalUI dwUILevel phWnd)

/-- The wrapper `MsiDll::MsiInstallProduct`: a call through `pfnMsiInstallProduct`, a null
dereference when the pointer is null. -/
def MsiDll.MsiInstallProduct (P : Platform) (msi : MsiDll) (szPackagePath szCommandLine : tstring) :
    Run Nat :=
  if msi.pfnMsiInstallProduct = 0 then
    Run.undefined
  else
    Run.call (Event.MsiInstallProduct msi.pfnMsiInstallProduct szPackagePath szCommandLine)
      (P.MsiInstallProduct msi.pfnMsiInstallProduct szPackagePath szCommandLine)

/-! ## Launch MSI -/

/-- The source's `getMsiFile`. -/
def getMsiFile (B : Build) (P : Platform) : Run tstring := do
  let currentModulePath ← getCurrentModulePath P
  if currentModulePath = "" then
    pure ""
  else
    let msiFileName ← loadStringResource P B.IDS_MSI_FILENAME
    if msiFileName = "" then
      pure ""
    else
      let directoryPart ← getFullPathDirectoryPart P currentModulePath
      pure (directoryPart ++ msiFileName)

/-- The message of `executeMsiFile` when the binding has an error. -/
def msgBindingFailed : tstring := "msi.dll内の関数を読み込めませんでした。"

/-- The message of `WinMain` when the version gate fails. -/
def msgInstallerNotFound : tstring :=
  "Windows Installerが見つかりませんでした。Windows Installerをインストールしてから再度セットアップを実行してください。"

/-- The message of `WinMain` when the package path is empty. -/
def msgPathUnresolved : tstring := ".msiファイル名を特定できませんでした。"

/-- The fixed part of the message of `WinMain` when the package file does not exist. -/
def msgFileMissing : tstring := "インストールに必要なファイルが見つかりませんでした。\n"

/-- The source's `executeMsiFile`: the local `msi` is destroyed on both return paths. -/
def executeMsiFile (B : Build) (P : Platform) (file : tstring) : Run Bool := do
  let msi ← MsiDll.new B P
  if msi.hasError then
    reportError msgBindingFailed
    msi.delete
    pure false
  else
    let _ ← msi.MsiSetInternalUI P INSTALLUILEVEL_FULL 0
    let _ ← msi.MsiInstallProduct P file ""
    msi.delete
    pure true

/-- The source's `WinMain`. -/
def WinMain (B : Build) (P : Platform) : Run Int := do
  let version ← getMsiVersion P
  if version < 0x200 then
    reportError msgInstallerNotFound
    pure 0
  else
    let msiPath ← getMsiFile B P
    if msiPath = "" then
      reportError msgPathUnresolved
      pure 0
    else
      let fileExists ← isFileExists P msiPath
      if !fileExists then
        reportError (msgFileMissing ++ msiPath)
        pure 0
      else
        let _ ← executeMsiFile B P msiPath
        pure 0

/-! ## Observations on a trace -/

/-- The texts of the message boxes shown, in order. -/
def messages : List Event → List tstring
  | [] => []
  | Event.MessageBox text _ _ :: es => text :: messages es
  | _ :: es => messages es

/-- Whether an event is a call through one of the wrappers of `MsiDll`. -/
def Event.isWrapperCall : Event → Bool
  | Event.MsiSetInternalUI _ _ _ => true
  | Event.MsiInstallProduct _ _ _ => true
  | _ => false

/-- The calls made through the wrappers of `MsiDll`, in order. -/
def wrapperCalls (es : List Event) : List Event := es.filter Event.isWrapperCall

/-- Whether an event is a `FreeLibrary`. -/
def Event.isFreeLibrary : Event → Bool
  | Event.FreeLibrary _ => true
  | _ => false

/-- The symbol names the `DEFMEMBER` lines look up, in the order of their declaration. -/
def symbolNames (B : Build) : List String :=
  [ "MsiSetInternalUI",
    "MsiInstallProduct" ++ MSIAPI_SUFFIX B,
    "MsiApplyPatch" ++ MSIAPI_SUFFIX B,
    "MsiReinstallProduct" ++ MSIAPI_SUFFIX B,
    "MsiQueryProductState" ++ MSIAPI_SUFFIX B,
    "MsiOpenDatabase" ++ MSIAPI_SUFFIX B,
    "MsiDatabaseOpenView" ++ MSIAPI_SUFFIX B,
    "MsiViewExecute",
    "MsiViewFetch",
    "MsiRecordGetString" ++ MSIAPI_SUFFIX B,
    "MsiCloseHandle" ]

/-- The eleven bound pointers of an `MsiDll`, in the order of their declaration. -/
def MsiDll.pointers (msi : MsiDll) : List FARPROC :=
  [ msi.pfnMsiSetInternalUI, msi.pfnMsiInstallProduct, msi.pfnMsiApplyPatch,
    msi.pfnMsiReinstallProduct, msi.pfnMsiQueryProductState, msi.pfnMsiOpenDatabase,
    msi.pfnMsiDatabaseOpenView, msi.pfnMsiViewExecute, msi.pfnMsiViewFetch,
    msi.pfnMsiRecordGetString, msi.pfnMsiCloseHandle ]

/-- Whether an event is a query that neither loads nor frees a library, shows no message and
calls no wrapper. -/
def Event.isQuery : Event → Bool
  | Event.LoadLibrary _ => false
  | Event.FreeLibrary _ => false
  | Event.MessageBox _ _ _ => false
  | Event.MsiSetInternalUI _ _ _ => false
  | Event.MsiInstallProduct _ _ _ => false
  | _ => true

/-- The directory `getSystemDirectory` returns, read off the platform. -/
def systemDirectoryOf (P : Platform) : tstring :=
  if (P.GetSystemDirectory MAX_PATH).1 = 0 ∨ (P.GetSystemDirectory MAX_PATH).1 > MAX_PATH then ""
  else (P.GetSystemDirectory MAX_PATH).2

/-- The path of the probed library: the system directory followed by the fixed file name. -/
def pathMsiDllOf (P : Platform) : tstring := systemDirectoryOf P ++ "\\MSI.DLL"

/-- The reference definition of `getFileVersionNumberMS`: the field `dwFileVersionMS` exactly
when the version-info size is positive, the version info is read, the root block query succeeds
and the reported size is at least `sizeof(VS_FIXEDFILEINFO)`; the fallback in every other case. -/
def getFileVersionNumberMS_reference (P : Platform) (path : tstring) (fallback : DWORD) : DWORD :=
  let size := (P.GetFileVersionInfoSize path).1
  let info := P.GetFileVersionInfo path (P.GetFileVersionInfoSize path).2 size
  let root := P.VerQueryValue info.2 "\\"
  if size > 0 ∧ info.1 = true ∧ root.1 = true ∧ root.2.2 ≥ sizeof_VS_FIXEDFILEINFO then
    root.2.1.dwFileVersionMS
  else
    fallback

/-- The reference definition of `getMsiVersion`: `0` if the system directory cannot be resolved
(reported length `0` or greater than `MAX_PATH`), otherwise `0` if loading the library in that
directory fails, otherwise the version number of that file with fallback `0`, returned as `int`. -/
def getMsiVersion_reference (P : Platform) : Int :=
  let reported := (P.GetSystemDirectory MAX_PATH).1
  let systemDir := (P.GetSystemDirectory MAX_PATH).2
  if reported = 0 ∨ reported > MAX_PATH then 0
  else if P.LoadLibrary (systemDir ++ "\\MSI.DLL") = 0 then 0
  else toInt (getFileVersionNumberMS_reference P (systemDir ++ "\\MSI.DLL") 0)

/-- The object the constructor builds when `msi.dll` is not loaded: every pointer is null and
`error_` is set. -/
def MsiDll.unloaded : MsiDll :=
  { error_ := true, hMsi_ := 0,
    pfnMsiSetInternalUI := 0, pfnMsiInstallProduct := 0, pfnMsiApplyPatch := 0,
    pfnMsiReinstallProduct := 0, pfnMsiQueryProductState := 0, pfnMsiOpenDatabase := 0,
    pfnMsiDatabaseOpenView := 0, pfnMsiViewExecute := 0, pfnMsiViewFetch := 0,
    pfnMsiRecordGetString := 0, pfnMsiCloseHandle := 0 }

/-- The object the constructor builds when `msi.dll` is loaded at `h`: every pointer is what
`GetProcAddress` gave for its symbol, and `error_` tells whether one of them is null. -/
def MsiDll.loaded (B : Build) (P : Platform) (h : HMODULE) : MsiDll :=
  { error_ := (symbolNames B).any fun name => P.GetProcAddress h name == 0,
    hMsi_ := h,
    pfnMsiSetInternalUI := P.GetProcAddress h "MsiSetInternalUI",
    pfnMsiInstallProduct := P.GetProcAddress h ("MsiInstallProduct" ++ MSIAPI_SUFFIX B),
    pfnMsiApplyPatch := P.GetProcAddress h ("MsiApplyPatch" ++ MSIAPI_SUFFIX B),
    pfnMsiReinstallProduct := P.GetProcAddress h ("MsiReinstallProduct" ++ MSIAPI_SUFFIX B),
    pfnMsiQueryProductState := P.GetProcAddress h ("MsiQueryProductState" ++ MSIAPI_SUFFIX B),
    pfnMsiOpenDatabase := P.GetProcAddress h ("MsiOpenDatabase" ++ MSIAPI_SUFFIX B),
    pfnMsiDatabaseOpenView := P.GetProcAddress h ("MsiDatabaseOpenView" ++ MSIAPI_SUFFIX B),
    pfnMsiViewExecute := P.GetProcAddress h "MsiViewExecute",
    pfnMsiViewFetch := P.GetProcAddress h "MsiViewFetch",
    pfnMsiRecordGetString := P.GetProcAddress h ("MsiRecordGetString" ++ MSIAPI_SUFFIX B),
    pfnMsiCloseHandle := P.GetProcAddress h "MsiCloseHandle" }

/-- The path `getCurrentModulePath` returns, read off the platform. -/
def currentModulePathOf (P : Platform) : tstring :=
  if (P.GetModuleFileName 0 MAX_PATH).1 ≥ MAX_PATH then "" else (P.GetModuleFileName 0 MAX_PATH).2

/-- The string `loadStringResource(IDS_MSI_FILENAME)` returns, read off the platform. -/
def msiFileNameOf (B : Build) (P : Platform) : tstring :=
  (P.LoadString P.GetModuleHandle B.IDS_MSI_FILENAME MAX_PATH).2

/-- The message box `reportError` shows for a text. -/
def errorBox (text : tstring) : Event := Event.MessageBox text errorCaption MB_OK

/-! ## Concrete platforms -/

/-- A version resource whose `dwFileVersionMS` is `v`. -/
def fixedFileInfoOf (v : DWORD) : VS_FIXEDFILEINFO :=
  { dwSignature := 4277077181, dwStrucVersion := 65536,
    dwFileVersionMS := v, dwFileVersionLS := 0,
    dwProductVersionMS := v, dwProductVersionLS := 0,
    dwFileFlagsMask := 63, dwFileFlags := 0, dwFileOS := 262148, dwFileType := 2,
    dwFileSubtype := 0, dwFileDateMS := 0, dwFileDateLS := 0 }

/-- A machine on which everything succeeds: the installer has `dwFileVersionMS = v`, the
executable is `C:\Tools\app.exe`, the package name is `setup.msi`, the package exists and
every symbol of `msi.dll` resolves. -/
def installerVersion (v : DWORD) : Platform :=
  { GetSystemDirectory := fun _ => (19, "C:\\WINDOWS\\system32"),
    LoadLibrary := fun _ => 268435456,
    GetProcAddress := fun _ _ => 268439552,
    GetFileVersionInfoSize := fun _ => (1024, 0),
    GetFileVersionInfo := fun _ _ _ => (true, []),
    VerQueryValue := fun _ _ => (true, fixedFileInfoOf v, 52),
    GetModuleFileName := fun _ _ => (16, "C:\\Tools\\app.exe"),
    GetFullPathName := fun _ _ => (16, "C:\\Tools\\app.exe", some 9),
    GetFileAttributes := fun _ => 32,
    GetModuleHandle := 4194304,
    LoadString := fun _ _ _ => (9, "setup.msi"),
    MsiSetInternalUI := fun _ _ _ => 5,
    MsiInstallProduct := fun _ _ _ => 0 }

/-- Scenario A of the specification: the installer has version 2.0. -/
def scenarioA : Platform := installerVersion 0x20000

/-- An ANSI build whose package-name resource has identifier 101. -/
def buildA : Build := { UNICODE := false, IDS_MSI_FILENAME := 101 }

/-- Scenario A, except that the optional entry point `MsiCloseHandle` does not resolve. -/
def scenarioA_withoutCloseHandle : Platform :=
  { scenarioA with
    GetProcAddress := fun _ name => if name = "MsiCloseHandle" then 0 else 268439552 }

/-- Scenario A, except that `msi.dll` does not load by its bare name. -/
def scenarioA_bindingUnloadable : Platform :=
  { scenarioA with LoadLibrary := fun name => if name = "msi.dll" then 0 else 268435456 }

/-- Scenario A, except that the system directory cannot be resolved. -/
def scenarioB : Platform :=
  { scenarioA with GetSystemDirectory := fun _ => (0, "") }

/-- Scenario A, except that the package-name resource is missing. -/
def scenarioA_withoutResource : Platform :=
  { scenarioA with LoadString := fun _ _ _ => (0, "") }

/-- Scenario C of the specification: scenario A, except that the package does not exist. -/
def scenarioC : Platform :=
  { scenarioA with GetFileAttributes := fun _ => INVALID_FILE_ATTRIBUTES }

/-- The platform `P` with other result codes for the two entry points the workflow calls. -/
def withResultCodes (P : Platform) (setInternalUI : FARPROC → Nat → Nat → Nat)
    (installProduct : FARPROC → tstring → tstring → Nat) : Platform :=
  { P with MsiSetInternalUI := setInternalUI, MsiInstallProduct := installProduct }

/-- The `FreeLibrary` calls of a trace, in order. -/
def frees (es : List Event) : List Event := es.filter Event.isFreeLibrary

/-- The version gate of `WinMain` fails: the not-found message is reported right after the
probe, nothing further is done and `WinMain` returns 0. -/
def versionGateFails (B : Build) (P : Platform) : Prop :=
  WinMain B P = ⟨some 0, (getMsiVersion P).events ++ [errorBox msgInstallerNotFound]⟩

/-- The version gate of `WinMain` passes: the not-found message is never reported and, right
after the probe, `WinMain` goes on to resolve the package path. -/
def versionGatePasses (B : Build) (P : Platform) : Prop :=
  msgInstallerNotFound ∉ messages (WinMain B P).events ∧
    (getMsiVersion P).events ++ [Event.GetModuleFileName 0 MAX_PATH] <+: (WinMain B P).events

instance (B : Build) (P : Platform) : Decidable (versionGateFails B P) := by
  unfold versionGateFails
  infer_instance

instance (B : Build) (P : Platform) : Decidable (versionGatePasses B P) := by
  unfold versionGatePasses
  infer_instance

/-- The 32-bit value the probe reads: 0 when the system directory is not resolved or the
library there does not load, otherwise the version number of the file with fallback 0. -/
def probedVersion (P : Platform) : DWORD :=
  if systemDirectoryOf P = "" then 0
  else if P.LoadLibrary (pathMsiDllOf P) = 0 then 0
  else getFileVersionNumberMS_reference P (pathMsiDllOf P) 0

/-! ## Basic facts on executions -/

theorem Run.pure_eq {α : Type} (a : α) : (pure a : Run α) = ⟨some a, []⟩ := rfl

theorem Run.bind_eq {α β : Type} (x : Run α) (f : α → Run β) : x >>= f = Run.bind x f := rfl

@[simp] theorem Run.bind_some {α β : Type} (a : α) (es : List Event) (f : α → Run β) :
    Run.bind ⟨some a, es⟩ f = ⟨(f a).value, es ++ (f a).events⟩ := rfl

@[simp] theorem Run.bind_none {α β : Type} (es : List Event) (f : α → Run β) :
    Run.bind (⟨none, es⟩ : Run α) f = ⟨none, es⟩ := rfl

theorem Run.bind_of_value {α β : Type} {x : Run α} {a : α} (h : x.value = some a)
    (f : α → Run β) : Run.bind x f = ⟨(f a).value, x.events ++ (f a).events⟩ := by
  cases x with
  | mk v es =>
    simp only at h
    subst h
    rfl

theorem Run.bind_of_undefined {α β : Type} {x : Run α} (h : x.value = none)
    (f : α → Run β) : Run.bind x f = ⟨none, x.events⟩ := by
  cases x with
  | mk v es =>
    simp only at h
    subst h
    rfl

theorem Run.value_bind {α β : Type} (x : Run α) (f : α → Run β) :
    (Run.bind x f).value = x.value.bind fun a => (f a).value := by
  cases x with
  | mk v es => cases v <;> rfl

theorem Run.events_bind {α β : Type} (x : Run α) (f : α → Run β) :
    (Run.bind x f).events = x.events ++ x.value.elim [] fun a => (f a).events := by
  cases x with
  | mk v es => cases v <;> simp [Run.bind]

/-! ## The helper functions in closed form -/

theorem getSystemDirectory_eq (P : Platform) :
    getSystemDirectory P =
      ⟨some (if (P.GetSystemDirectory MAX_PATH).1 = 0 ∨ (P.GetSystemDirectory MAX_PATH).1 > MAX_PATH
          then "" else (P.GetSystemDirectory MAX_PATH).2),
        [Event.GetSystemDirectory MAX_PATH]⟩ := by
  unfold getSystemDirectory
  simp only [Run.bind_eq, Run.pure_eq, Run.call, Run.bind_some]
  split <;> simp

theorem getCurrentModulePath_eq (P : Platform) :
    getCurrentModulePath P =
      ⟨some (if (P.GetModuleFileName 0 MAX_PATH).1 ≥ MAX_PATH then ""
          else (P.GetModuleFileName 0 MAX_PATH).2),
        [Event.GetModuleFileName 0 MAX_PATH]⟩ := by
  unfold getCurrentModulePath
  simp only [Run.bind_eq, Run.pure_eq, Run.call, Run.bind_some]
  split <;> simp

theorem loadStringResource_eq (P : Platform) (resourceId : Nat) :
    loadStringResource P resourceId =
      ⟨some (P.LoadString P.GetModuleHandle resourceId MAX_PATH).2,
        [Event.GetModuleHandle, Event.LoadString P.GetModuleHandle resourceId MAX_PATH]⟩ := by
  unfold loadStringResource
  simp [Run.bind_eq, Run.pure_eq, Run.call]

theorem isFileExists_eq (P : Platform) (path : tstring) :
    isFileExists P path =
      ⟨some (decide (P.GetFileAttributes path ≠ INVALID_FILE_ATTRIBUTES)),
        [Event.GetFileAttributes path]⟩ := by
  unfold isFileExists
  simp [Run.bind_eq, Run.pure_eq, Run.call]

theorem getFullPathDirectoryPart_events (P : Platform) (path : tstring) :
    (getFullPathDirectoryPart P path).events = [Event.GetFullPathName path MAX_PATH] := by
  unfold getFullPathDirectoryPart
  simp only [Run.bind_eq, Run.pure_eq, Run.call, Run.bind_some]
  split
  · simp
  · split <;> simp [Run.undefined]

theorem getFileVersionNumberMS_value (P : Platform) (path : tstring) (fallback : DWORD) :
    (getFileVersionNumberMS P path fallback).value =
      some (getFileVersionNumberMS_reference P path fallback) := by
  unfold getFileVersionNumberMS getFileVersionNumberMS_reference
  simp only [Run.bind_eq, Run.pure_eq, Run.call, Run.bind_some]
  split_ifs <;> simp_all

theorem getFileVersionNumberMS_events (P : Platform) (path : tstring) (fallback : DWORD) :
    ∀ e ∈ (getFileVersionNumberMS P path fallback).events, e.isQuery = true := by
  unfold getFileVersionNumberMS
  simp only [Run.bind_eq, Run.pure_eq, Run.call, Run.bind_some]
  split_ifs <;> simp [Event.isQuery]

theorem getFileVersionNumberMS_eq (P : Platform) (path : tstring) (fallback : DWORD) :
    getFileVersionNumberMS P path fallback =
      ⟨some (getFileVersionNumberMS_reference P path fallback),
        (getFileVersionNumberMS P path fallback).events⟩ := by
  rw [← getFileVersionNumberMS_value]

/-- The events of `getMsiVersion`, by the outcome of the two checks. -/
theorem getMsiVersion_events (P : Platform) :
    (getMsiVersion P).events =
      Event.GetSystemDirectory MAX_PATH ::
        (if systemDirectoryOf P = "" then []
         else Event.LoadLibrary (pathMsiDllOf P) ::
          (if P.LoadLibrary (pathMsiDllOf P) = 0 then []
           else Event.FreeLibrary (P.LoadLibrary (pathMsiDllOf P)) ::
            (getFileVersionNumberMS P (pathMsiDllOf P) 0).events)) := by
  unfold getMsiVersion
  rw [Run.bind_eq, getSystemDirectory_eq]
  simp only [Run.bind_some, Run.pure_eq, Run.bind_eq, Run.call, systemDirectoryOf, pathMsiDllOf]
  split_ifs <;> simp [Run.bind_of_value (getFileVersionNumberMS_value _ _ _)]

/-- The value of `getMsiVersion`, by the outcome of the two checks. -/
theorem getMsiVersion_value (P : Platform) :
    (getMsiVersion P).value =
      some (if systemDirectoryOf P = "" then 0
        else if P.LoadLibrary (pathMsiDllOf P) = 0 then 0
        else toInt (getFileVersionNumberMS_reference P (pathMsiDllOf P) 0)) := by
  unfold getMsiVersion
  rw [Run.bind_eq, getSystemDirectory_eq]
  simp only [Run.bind_some, Run.pure_eq, Run.bind_eq, Run.call, systemDirectoryOf, pathMsiDllOf]
  split_ifs <;> simp [Run.bind_of_value (getFileVersionNumberMS_value _ _ _)]

/-! ## The binder in closed form -/

theorem MsiDll.getProcAddress_null (P : Platform) (error_ : Bool) (name : String) :
    MsiDll.getProcAddress P 0 error_ name = ⟨some (0, true), []⟩ := by
  simp [MsiDll.getProcAddress, Run.pure_eq]

theorem MsiDll.getProcAddress_loaded (P : Platform) {h : HMODULE} (hh : h ≠ 0) (error_ : Bool)
    (name : String) :
    MsiDll.getProcAddress P h error_ name =
      ⟨some (P.GetProcAddress h name, error_ || P.GetProcAddress h name == 0),
        [Event.GetProcAddress h name]⟩ := by
  unfold MsiDll.getProcAddress
  simp only [hh, ne_eq, not_false_eq_true, if_true, Run.bind_eq, Run.pure_eq, Run.call,
    Run.bind_some]
  split <;> simp_all

theorem MsiDll.new_of_not_loaded (B : Build) (P : Platform) (h0 : P.LoadLibrary "msi.dll" = 0) :
    MsiDll.new B P = ⟨some MsiDll.unloaded, [Event.LoadLibrary "msi.dll"]⟩ := by
  unfold MsiDll.new
  simp [Run.bind_eq, Run.pure_eq, Run.call, h0, MsiDll.getProcAddress_null, MsiDll.unloaded]

theorem MsiDll.new_of_loaded (B : Build) (P : Platform) (h0 : P.LoadLibrary "msi.dll" ≠ 0) :
    MsiDll.new B P =
      ⟨some (MsiDll.loaded B P (P.LoadLibrary "msi.dll")),
        Event.LoadLibrary "msi.dll" ::
          (symbolNames B).map (Event.GetProcAddress (P.LoadLibrary "msi.dll"))⟩ := by
  unfold MsiDll.new
  simp [Run.bind_eq, Run.pure_eq, Run.call, MsiDll.getProcAddress_loaded P h0, MsiDll.loaded,
    symbolNames, Bool.or_assoc]

theorem MsiDll.new_value (B : Build) (P : Platform) :
    (MsiDll.new B P).value =
      some (if P.LoadLibrary "msi.dll" = 0 then MsiDll.unloaded
        else MsiDll.loaded B P (P.LoadLibrary "msi.dll")) := by
  by_cases h0 : P.LoadLibrary "msi.dll" = 0
  · rw [MsiDll.new_of_not_loaded B P h0, if_pos h0]
  · rw [MsiDll.new_of_loaded B P h0, if_neg h0]

theorem MsiDll.new_events (B : Build) (P : Platform) :
    (MsiDll.new B P).events =
      Event.LoadLibrary "msi.dll" ::
        (if P.LoadLibrary "msi.dll" = 0 then []
         else (symbolNames B).map (Event.GetProcAddress (P.LoadLibrary "msi.dll"))) := by
  by_cases h0 : P.LoadLibrary "msi.dll" = 0
  · rw [MsiDll.new_of_not_loaded B P h0, if_pos h0]
  · rw [MsiDll.new_of_loaded B P h0, if_neg h0]

theorem MsiDll.new_hMsi (B : Build) (P : Platform) {msi : MsiDll}
    (hnew : (MsiDll.new B P).value = some msi) : msi.hMsi_ = P.LoadLibrary "msi.dll" := by
  rw [MsiDll.new_value] at hnew
  injection hnew with hnew
  subst hnew
  split <;> simp_all [MsiDll.unloaded, MsiDll.loaded]

theorem MsiDll.hasError_unloaded : MsiDll.unloaded.hasError = true := rfl

theorem MsiDll.hasError_loaded (B : Build) (P : Platform) (h : HMODULE) :
    (MsiDll.loaded B P h).hasError = true ↔
      h = 0 ∨ ∃ name ∈ symbolNames B, P.GetProcAddress h name = 0 := by
  simp [MsiDll.hasError, MsiDll.loaded]

/-- What the constructed object's `hasError` is, on the platform's outcomes. -/
theorem MsiDll.hasError_new (B : Build) (P : Platform) {msi : MsiDll}
    (hnew : (MsiDll.new B P).value = some msi) :
    msi.hasError = true ↔
      P.LoadLibrary "msi.dll" = 0 ∨
        ∃ name ∈ symbolNames B, P.GetProcAddress (P.LoadLibrary "msi.dll") name = 0 := by
  rw [MsiDll.new_value] at hnew
  injection hnew with hnew
  subst hnew
  by_cases h0 : P.LoadLibrary "msi.dll" = 0
  · simp [h0, MsiDll.hasError_unloaded]
  · rw [if_neg h0, MsiDll.hasError_loaded]

theorem MsiDll.pointers_loaded (B : Build) (P : Platform) (h : HMODULE) :
    (MsiDll.loaded B P h).pointers = (symbolNames B).map (P.GetProcAddress h) := by
  simp [MsiDll.pointers, MsiDll.loaded, symbolNames]

/-- An object without error has a handle and the two pointers the workflow calls through. -/
theorem MsiDll.bound_of_not_hasError (B : Build) (P : Platform) {msi : MsiDll}
    (hnew : (MsiDll.new B P).value = some msi) (herr : msi.hasError = false) :
    msi.hMsi_ ≠ 0 ∧ msi.pfnMsiSetInternalUI ≠ 0 ∧ msi.pfnMsiInstallProduct ≠ 0 := by
  rw [MsiDll.new_value] at hnew
  injection hnew with hnew
  subst hnew
  by_cases h0 : P.LoadLibrary "msi.dll" = 0
  · simp [h0, MsiDll.hasError_unloaded] at herr
  · simp only [if_neg h0] at herr ⊢
    simp [MsiDll.hasError, MsiDll.loaded, symbolNames] at herr
    simp [MsiDll.loaded, herr]

/-! ## `executeMsiFile` on its two paths -/

theorem executeMsiFile_of_hasError (B : Build) (P : Platform) (file : tstring) {msi : MsiDll}
    (hnew : (MsiDll.new B P).value = some msi) (herr : msi.hasError = true) :
    executeMsiFile B P file =
      ⟨some false,
        (MsiDll.new B P).events ++ errorBox msgBindingFailed ::
          (if msi.hMsi_ = 0 then [] else [Event.FreeLibrary msi.hMsi_])⟩ := by
  unfold executeMsiFile
  rw [Run.bind_eq, Run.bind_of_value hnew]
  simp only [herr, if_true, reportError, MsiDll.delete, Run.bind_eq, Run.pure_eq, Run.call,
    Run.bind_some, errorBox]
  split_ifs <;> simp_all

theorem executeMsiFile_of_not_hasError (B : Build) (P : Platform) (file : tstring) {msi : MsiDll}
    (hnew : (MsiDll.new B P).value = some msi) (herr : msi.hasError = false) :
    executeMsiFile B P file =
      ⟨some true,
        (MsiDll.new B P).events ++
          [Event.MsiSetInternalUI msi.pfnMsiSetInternalUI INSTALLUILEVEL_FULL 0,
           Event.MsiInstallProduct msi.pfnMsiInstallProduct file "",
           Event.FreeLibrary msi.hMsi_]⟩ := by
  obtain ⟨hh, h1, h2⟩ := MsiDll.bound_of_not_hasError B P hnew herr
  unfold executeMsiFile
  rw [Run.bind_eq, Run.bind_of_value hnew]
  simp [herr, MsiDll.delete, MsiDll.MsiSetInternalUI, MsiDll.MsiInstallProduct, Run.bind_eq,
    Run.pure_eq, Run.call, hh, h1, h2]

/-! ## `getMsiFile` in closed form -/

theorem getMsiFile_value (B : Build) (P : Platform) :
    (getMsiFile B P).value =
      if currentModulePathOf P = "" then some ""
      else if msiFileNameOf B P = "" then some ""
      else (getFullPathDirectoryPart P (currentModulePathOf P)).value.map
        fun directoryPart => directoryPart ++ msiFileNameOf B P := by
  unfold getMsiFile
  rw [Run.bind_eq, getCurrentModulePath_eq]
  simp only [Run.bind_some, Run.bind_eq, Run.pure_eq, loadStringResource_eq, currentModulePathOf,
    msiFileNameOf]
  split_ifs <;> simp_all [Run.value_bind]
  generalize (getFullPathDirectoryPart P _).value = o
  cases o <;> rfl

theorem getMsiFile_events (B : Build) (P : Platform) :
    (getMsiFile B P).events =
      Event.GetModuleFileName 0 MAX_PATH ::
        (if currentModulePathOf P = "" then []
         else Event.GetModuleHandle :: Event.LoadString P.GetModuleHandle B.IDS_MSI_FILENAME MAX_PATH ::
          (if msiFileNameOf B P = "" then []
           else [Event.GetFullPathName (currentModulePathOf P) MAX_PATH])) := by
  unfold getMsiFile
  rw [Run.bind_eq, getCurrentModulePath_eq]
  simp only [Run.bind_some, Run.bind_eq, Run.pure_eq, loadStringResource_eq, currentModulePathOf,
    msiFileNameOf]
  split_ifs <;> simp_all [Run.events_bind, getFullPathDirectoryPart_events]
  generalize (getFullPathDirectoryPart P _).value = o
  cases o <;> rfl

theorem getMsiFile_queries (B : Build) (P : Platform) :
    ∀ e ∈ (getMsiFile B P).events, e.isQuery = true := by
  rw [getMsiFile_events]
  split_ifs <;> simp [Event.isQuery]

/-! ## What a trace of queries shows -/

theorem messages_append (es fs : List Event) : messages (es ++ fs) = messages es ++ messages fs := by
  induction es with
  | nil => rfl
  | cons e es ih => cases e <;> simp [messages, ih]

theorem messages_of_queries {es : List Event} (h : ∀ e ∈ es, e.isQuery = true) :
    messages es = [] := by
  induction es with
  | nil => rfl
  | cons e es ih =>
    have he := h e (List.mem_cons_self _ _)
    have hes := ih fun x hx => h x (List.mem_cons_of_mem _ hx)
    cases e <;> simp_all [messages, Event.isQuery]

theorem wrapperCalls_append (es fs : List Event) :
    wrapperCalls (es ++ fs) = wrapperCalls es ++ wrapperCalls fs := by
  simp [wrapperCalls]

theorem wrapperCalls_of_queries {es : List Event} (h : ∀ e ∈ es, e.isQuery = true) :
    wrapperCalls es = [] := by
  rw [wrapperCalls, List.filter_eq_nil_iff]
  intro e he
  have := h e he
  cases e <;> simp_all [Event.isQuery, Event.isWrapperCall]

theorem not_mem_of_queries {es : List Event} (h : ∀ e ∈ es, e.isQuery = true) {e : Event}
    (he : e.isQuery = false) : e ∉ es := by
  intro hmem
  rw [h e hmem] at he
  exact Bool.noConfusion he

/-! ## `WinMain` gate by gate -/

theorem WinMain_of_version_lt (B : Build) (P : Platform) {v : Int}
    (hv : (getMsiVersion P).value = some v) (hlt : v < 0x200) :
    WinMain B P = ⟨some 0, (getMsiVersion P).events ++ [errorBox msgInstallerNotFound]⟩ := by
  unfold WinMain
  rw [Run.bind_eq, Run.bind_of_value hv]
  simp [hlt, reportError, Run.bind_eq, Run.pure_eq, Run.call, errorBox]

theorem WinMain_of_path_undefined (B : Build) (P : Platform) {v : Int}
    (hv : (getMsiVersion P).value = some v) (hge : ¬ v < 0x200)
    (hp : (getMsiFile B P).value = none) :
    WinMain B P = ⟨none, (getMsiVersion P).events ++ (getMsiFile B P).events⟩ := by
  unfold WinMain
  rw [Run.bind_eq, Run.bind_of_value hv]
  simp only [hge, if_false, Run.bind_eq, Run.bind_of_undefined hp]

theorem WinMain_of_path_empty (B : Build) (P : Platform) {v : Int}
    (hv : (getMsiVersion P).value = some v) (hge : ¬ v < 0x200)
    (hp : (getMsiFile B P).value = some "") :
    WinMain B P =
      ⟨some 0, (getMsiVersion P).events ++ ((getMsiFile B P).events ++ [errorBox msgPathUnresolved])⟩ := by
  unfold WinMain
  rw [Run.bind_eq, Run.bind_of_value hv]
  simp only [hge, if_false, Run.bind_eq, Run.bind_of_value hp]
  simp [reportError, Run.bind_eq, Run.pure_eq, Run.call, errorBox]

theorem WinMain_of_file_missing (B : Build) (P : Platform) {v : Int} {p : tstring}
    (hv : (getMsiVersion P).value = some v) (hge : ¬ v < 0x200)
    (hp : (getMsiFile B P).value = some p) (hne : p ≠ "")
    (hm : P.GetFileAttributes p = INVALID_FILE_ATTRIBUTES) :
    WinMain B P =
      ⟨some 0, (getMsiVersion P).events ++ ((getMsiFile B P).events ++
        [Event.GetFileAttributes p, errorBox (msgFileMissing ++ p)])⟩ := by
  unfold WinMain
  rw [Run.bind_eq, Run.bind_of_value hv]
  simp only [hge, if_false, Run.bind_eq, Run.bind_of_value hp]
  simp [hne, hm, isFileExists_eq, reportError, Run.bind_eq, Run.pure_eq, Run.call, errorBox]

theorem WinMain_of_file_exists (B : Build) (P : Platform) {v : Int} {p : tstring}
    (hv : (getMsiVersion P).value = some v) (hge : ¬ v < 0x200)
    (hp : (getMsiFile B P).value = some p) (hne : p ≠ "")
    (hm : P.GetFileAttributes p ≠ INVALID_FILE_ATTRIBUTES) :
    WinMain B P =
      ⟨(executeMsiFile B P p).value.map fun _ => 0,
        (getMsiVersion P).events ++ ((getMsiFile B P).events ++
          Event.GetFileAttributes p :: (executeMsiFile B P p).events)⟩ := by
  unfold WinMain
  rw [Run.bind_eq, Run.bind_of_value hv]
  simp only [hge, if_false, Run.bind_eq, Run.bind_of_value hp]
  simp [hne, hm, isFileExists_eq, Run.bind_eq, Run.pure_eq, Run.value_bind, Run.events_bind]
  generalize (executeMsiFile B P p).value = o
  cases o <;> simp

theorem pathMsiDllOf_ne (P : Platform) : pathMsiDllOf P ≠ "msi.dll" := by
  intro h
  have hlen := congrArg String.length h
  have h8 : ("\\MSI.DLL" : String).length = 8 := by decide
  have h7 : ("msi.dll" : String).length = 7 := by decide
  rw [pathMsiDllOf, String.length_append, h8, h7] at hlen
  omega

theorem messages_getMsiVersion (P : Platform) : messages (getMsiVersion P).events = [] := by
  have hq := messages_of_queries (getFileVersionNumberMS_events P (pathMsiDllOf P) 0)
  rw [getMsiVersion_events]
  generalize (getFileVersionNumberMS P (pathMsiDllOf P) 0).events = vs at hq ⊢
  split_ifs <;> simp [messages, hq]

theorem wrapperCalls_getMsiVersion (P : Platform) : wrapperCalls (getMsiVersion P).events = [] := by
  have hq := wrapperCalls_of_queries (getFileVersionNumberMS_events P (pathMsiDllOf P) 0)
  rw [wrapperCalls] at hq
  rw [getMsiVersion_events, wrapperCalls]
  generalize (getFileVersionNumberMS P (pathMsiDllOf P) 0).events = vs at hq ⊢
  split_ifs <;> simp [Event.isWrapperCall, List.filter_cons, hq]

theorem binding_load_not_mem_getMsiVersion (P : Platform) :
    Event.LoadLibrary "msi.dll" ∉ (getMsiVersion P).events := by
  have hq : Event.LoadLibrary "msi.dll" ∉ (getFileVersionNumberMS P (pathMsiDllOf P) 0).events :=
    not_mem_of_queries (getFileVersionNumberMS_events P (pathMsiDllOf P) 0) rfl
  have hne := pathMsiDllOf_ne P
  rw [getMsiVersion_events]
  generalize (getFileVersionNumberMS P (pathMsiDllOf P) 0).events = vs at hq ⊢
  split_ifs <;> simp [hq, Ne.symm hne]

theorem messages_getMsiFile (B : Build) (P : Platform) : messages (getMsiFile B P).events = [] :=
  messages_of_queries (getMsiFile_queries B P)

theorem wrapperCalls_getMsiFile (B : Build) (P : Platform) :
    wrapperCalls (getMsiFile B P).events = [] :=
  wrapperCalls_of_queries (getMsiFile_queries B P)

theorem MsiDll.new_no_message (B : Build) (P : Platform) :
    messages (MsiDll.new B P).events = [] ∧ wrapperCalls (MsiDll.new B P).events = [] ∧
      ∀ h, Event.FreeLibrary h ∉ (MsiDll.new B P).events := by
  rw [MsiDll.new_events]
  split_ifs <;>
    simp [messages, wrapperCalls, Event.isWrapperCall, symbolNames, List.filter_cons]

theorem executeMsiFile_value_isSome (B : Build) (P : Platform) (file : tstring) :
    ∃ b, (executeMsiFile B P file).value = some b := by
  obtain ⟨msi, hnew⟩ : ∃ msi, (MsiDll.new B P).value = some msi := ⟨_, MsiDll.new_value B P⟩
  cases herr : msi.hasError with
  | true => exact ⟨false, by rw [executeMsiFile_of_hasError B P file hnew herr]⟩
  | false => exact ⟨true, by rw [executeMsiFile_of_not_hasError B P file hnew herr]⟩

/-! ## The result codes of the entry points are not looked at -/

theorem executeMsiFile_withResultCodes (B : Build) (P : Platform)
    (f : FARPROC → Nat → Nat → Nat) (g : FARPROC → tstring → tstring → Nat) (file : tstring) :
    executeMsiFile B (withResultCodes P f g) file = executeMsiFile B P file := by
  obtain ⟨msi, hnew⟩ : ∃ msi, (MsiDll.new B P).value = some msi := ⟨_, MsiDll.new_value B P⟩
  have hnew' : (MsiDll.new B (withResultCodes P f g)).value = some msi := hnew
  cases herr : msi.hasError with
  | true =>
    rw [executeMsiFile_of_hasError B P file hnew herr,
      executeMsiFile_of_hasError B (withResultCodes P f g) file hnew' herr]
    rfl
  | false =>
    rw [executeMsiFile_of_not_hasError B P file hnew herr,
      executeMsiFile_of_not_hasError B (withResultCodes P f g) file hnew' herr]
    rfl

theorem WinMain_withResultCodes (B : Build) (P : Platform)
    (f : FARPROC → Nat → Nat → Nat) (g : FARPROC → tstring → tstring → Nat) :
    WinMain B (withResultCodes P f g) = WinMain B P := by
  unfold WinMain
  simp only [executeMsiFile_withResultCodes]
  rfl

/-! ## Library handles -/

theorem frees_append (es fs : List Event) : frees (es ++ fs) = frees es ++ frees fs := by
  simp [frees]

theorem frees_of_queries {es : List Event} (h : ∀ e ∈ es, e.isQuery = true) : frees es = [] := by
  rw [frees, List.filter_eq_nil_iff]
  intro e he
  have := h e he
  cases e <;> simp_all [Event.isQuery, Event.isFreeLibrary]

theorem frees_new (B : Build) (P : Platform) : frees (MsiDll.new B P).events = [] := by
  rw [MsiDll.new_events]
  split_ifs <;> simp [frees, Event.isFreeLibrary, symbolNames, List.filter_cons]

/-- The events of `executeMsiFile` between the load of `msi.dll` and the end of the scope of
the local `msi`. -/
theorem executeMsiFile_events (B : Build) (P : Platform) (file : tstring) :
    ∃ body, frees body = [] ∧
      (executeMsiFile B P file).events =
        Event.LoadLibrary "msi.dll" :: body ++
          (if P.LoadLibrary "msi.dll" = 0 then []
           else [Event.FreeLibrary (P.LoadLibrary "msi.dll")]) := by
  obtain ⟨msi, hnew⟩ : ∃ msi, (MsiDll.new B P).value = some msi := ⟨_, MsiDll.new_value B P⟩
  have hh := MsiDll.new_hMsi B P hnew
  have hf := frees_new B P
  have hev := MsiDll.new_events B P
  generalize (if P.LoadLibrary "msi.dll" = 0 then []
    else (symbolNames B).map (Event.GetProcAddress (P.LoadLibrary "msi.dll"))) = lookups at hev
  rw [hev] at hf
  have hl : frees lookups = [] := by simpa [frees, Event.isFreeLibrary, List.filter_cons] using hf
  cases herr : msi.hasError with
  | true =>
    refine ⟨lookups ++ [errorBox msgBindingFailed], ?_, ?_⟩
    · rw [frees_append, hl]
      rfl
    · rw [executeMsiFile_of_hasError B P file hnew herr, hev, hh]
      simp
  | false =>
    obtain ⟨h0, -, -⟩ := MsiDll.bound_of_not_hasError B P hnew herr
    rw [hh] at h0
    refine ⟨lookups ++
      [Event.MsiSetInternalUI msi.pfnMsiSetInternalUI INSTALLUILEVEL_FULL 0,
       Event.MsiInstallProduct msi.pfnMsiInstallProduct file ""], ?_, ?_⟩
    · rw [frees_append, hl]
      rfl
    · rw [executeMsiFile_of_not_hasError B P file hnew herr, hev, hh, if_neg h0]
      simp

/-! ## The messages of a run -/

theorem msgFileMissing_append_ne (p : tstring) : msgFileMissing ++ p ≠ msgInstallerNotFound := by
  intro h
  have h1 : msgFileMissing.data ≠ [] := by decide
  have h2 : msgFileMissing.data.head? ≠ msgInstallerNotFound.data.head? := by decide
  have h3 := congrArg (fun s => s.data.head?) h
  simp only [String.data_append, List.head?_append_of_ne_nil _ h1] at h3
  exact h2 h3

theorem messages_executeMsiFile (B : Build) (P : Platform) (file : tstring) {msi : MsiDll}
    (hnew : (MsiDll.new B P).value = some msi) :
    messages (executeMsiFile B P file).events =
      if msi.hasError = true then [msgBindingFailed] else [] := by
  obtain ⟨hm, -, -⟩ := MsiDll.new_no_message B P
  cases herr : msi.hasError with
  | true =>
    rw [executeMsiFile_of_hasError B P file hnew herr, messages_append, hm, if_pos rfl]
    split_ifs <;> rfl
  | false =>
    rw [executeMsiFile_of_not_hasError B P file hnew herr, messages_append, hm,
      if_neg Bool.false_ne_true]
    rfl

theorem wrapperCalls_executeMsiFile_of_hasError (B : Build) (P : Platform) (file : tstring)
    {msi : MsiDll} (hnew : (MsiDll.new B P).value = some msi) (herr : msi.hasError = true) :
    wrapperCalls (executeMsiFile B P file).events = [] := by
  obtain ⟨-, hw, -⟩ := MsiDll.new_no_message B P
  rw [executeMsiFile_of_hasError B P file hnew herr, wrapperCalls_append, hw]
  split_ifs <;> rfl

/-- Past the version gate, `WinMain` runs `getMsiFile` and never shows the not-found message. -/
theorem WinMain_after_version (B : Build) (P : Platform) {v : Int}
    (hv : (getMsiVersion P).value = some v) (hge : ¬ v < 0x200) :
    ∃ tail, (WinMain B P).events = (getMsiVersion P).events ++ ((getMsiFile B P).events ++ tail) ∧
      msgInstallerNotFound ∉ messages tail := by
  cases hp : (getMsiFile B P).value with
  | none =>
    exact ⟨[], by rw [WinMain_of_path_undefined B P hv hge hp, List.append_nil], by simp [messages]⟩
  | some p =>
    by_cases hne : p = ""
    · subst hne
      refine ⟨[errorBox msgPathUnresolved], by rw [WinMain_of_path_empty B P hv hge hp], ?_⟩
      decide
    · by_cases hm : P.GetFileAttributes p = INVALID_FILE_ATTRIBUTES
      · refine ⟨[Event.GetFileAttributes p, errorBox (msgFileMissing ++ p)],
          by rw [WinMain_of_file_missing B P hv hge hp hne hm], ?_⟩
        simp only [messages, errorBox, List.mem_singleton]
        exact fun h => msgFileMissing_append_ne p h.symm
      · refine ⟨Event.GetFileAttributes p :: (executeMsiFile B P p).events,
          by rw [WinMain_of_file_exists B P hv hge hp hne hm], ?_⟩
        obtain ⟨msi, hnew⟩ : ∃ msi, (MsiDll.new B P).value = some msi :=
          ⟨_, MsiDll.new_value B P⟩
        have hmsg := messages_executeMsiFile B P p hnew
        generalize (executeMsiFile B P p).events = es at hmsg
        simp only [messages, hmsg]
        split_ifs
        · decide
        · simp

theorem versionGateFails_iff (B : Build) (P : Platform) {v : Int}
    (hv : (getMsiVersion P).value = some v) : versionGateFails B P ↔ v < 0x200 := by
  constructor
  · intro hfail
    by_contra hge
    obtain ⟨tail, hev, -⟩ := WinMain_after_version B P hv hge
    rw [versionGateFails] at hfail
    rw [hfail, getMsiFile_events] at hev
    simp [errorBox] at hev
  · exact fun hlt => WinMain_of_version_lt B P hv hlt

theorem versionGatePasses_iff (B : Build) (P : Platform) {v : Int}
    (hv : (getMsiVersion P).value = some v) : versionGatePasses B P ↔ ¬ v < 0x200 := by
  constructor
  · intro hpass hlt
    apply hpass.1
    rw [WinMain_of_version_lt B P hv hlt, messages_append, messages_getMsiVersion]
    simp [messages, errorBox]
  · intro hge
    obtain ⟨tail, hev, hmsg⟩ := WinMain_after_version B P hv hge
    refine ⟨?_, ?_⟩
    · rw [hev, messages_append, messages_append, messages_getMsiVersion, messages_getMsiFile]
      simpa using hmsg
    · rw [hev, getMsiFile_events, List.prefix_append_right_inj, List.cons_append]
      simp

/-! ## The signed reading of the version -/

theorem toInt_of_lt {v : Nat} (h : v < 0x80000000) : toInt v = (v : Int) := by
  have h32 : v % 4294967296 = v := Nat.mod_eq_of_lt (by omega)
  have hlt : v < 2147483648 := h
  simp only [toInt, Nat.reducePow, h32, if_pos hlt]

theorem toInt_of_ge {v : Nat} (h : 0x80000000 ≤ v) (h32 : v < 0x100000000) :
    toInt v = (v : Int) - 0x100000000 := by
  have hmod : v % 4294967296 = v := Nat.mod_eq_of_lt h32
  have hn : ¬ v < 2147483648 := by omega
  simp only [toInt, Nat.reducePow, hmod, if_neg hn]
  norm_num

theorem toInt_lt_iff {v : Nat} (h32 : v < 0x100000000) :
    toInt v < 0x200 ↔ v < 0x200 ∨ 0x80000000 ≤ v := by
  by_cases h : v < 0x80000000
  · rw [toInt_of_lt h]
    omega
  · rw [toInt_of_ge (by omega) h32]
    omega

theorem getMsiVersion_probedVersion (P : Platform) :
    (getMsiVersion P).value = some (toInt (probedVersion P)) := by
  rw [getMsiVersion_value, probedVersion]
  split_ifs <;> rfl

/-! ## The binder -/

/-- C2: for every outcome of loading `msi.dll` and of the eleven symbol lookups, the
constructor returns an object whose `hasError()` is true iff the library handle is null or at
least one lookup returned null; the flag is sticky (`getProcAddress` never clears a set
`error_`), one missing symbol with the library loaded gives `hasError()`, and with the library
not loaded every bound pointer is null and `hasError()` is true. -/
theorem C2_hasError_iff_handle_null_or_lookup_null (B : Build) (P : Platform) :
    ∃ msi, (MsiDll.new B P).value = some msi ∧
      msi.hMsi_ = P.LoadLibrary "msi.dll" ∧
      (symbolNames B).length = 11 ∧ msi.pointers.length = 11 ∧
      (msi.hasError = true ↔ msi.hMsi_ = 0 ∨ ∃ pfn ∈ msi.pointers, pfn = 0) ∧
      (msi.hasError = true ↔
        P.LoadLibrary "msi.dll" = 0 ∨
          ∃ name ∈ symbolNames B, P.GetProcAddress (P.LoadLibrary "msi.dll") name = 0) ∧
      (msi.hMsi_ ≠ 0 → msi.pointers = (symbolNames B).map (P.GetProcAddress msi.hMsi_)) ∧
      (msi.hMsi_ = 0 → (∀ pfn ∈ msi.pointers, pfn = 0) ∧ msi.hasError = true) ∧
      (∀ h name, ∃ pfn, (MsiDll.getProcAddress P h true name).value = some (pfn, true)) := by
  refine ⟨_, MsiDll.new_value B P, ?_, rfl, rfl, ?_, ?_, ?_, ?_, ?_⟩
  · split <;> simp_all [MsiDll.unloaded, MsiDll.loaded]
  · by_cases h0 : P.LoadLibrary "msi.dll" = 0
    · simp [h0, MsiDll.hasError, MsiDll.unloaded]
    · rw [if_neg h0, MsiDll.hasError_loaded, MsiDll.pointers_loaded]
      simp [MsiDll.loaded]
  · exact MsiDll.hasError_new B P (MsiDll.new_value B P)
  · by_cases h0 : P.LoadLibrary "msi.dll" = 0
    · simp [h0, MsiDll.unloaded]
    · intro _
      rw [if_neg h0, MsiDll.pointers_loaded]
      rfl
  · by_cases h0 : P.LoadLibrary "msi.dll" = 0
    · intro _
      simp [h0, MsiDll.hasError, MsiDll.unloaded, MsiDll.pointers]
    · intro h
      simp [h0, MsiDll.loaded] at h
  · intro h name
    by_cases hh : h = 0
    · subst hh
      exact ⟨0, by rw [MsiDll.getProcAddress_null]⟩
    · exact ⟨P.GetProcAddress h name, by rw [MsiDll.getProcAddress_loaded P hh]; rfl⟩

/-- C2 at scenario A without `MsiCloseHandle`: the library is loaded, exactly one symbol is
missing, and `hasError()` is true. -/
theorem C2_hasError_witness :
    ∃ msi, (MsiDll.new buildA scenarioA_withoutCloseHandle).value = some msi ∧
      msi.hMsi_ ≠ 0 ∧ msi.pointers.count 0 = 1 ∧ msi.hasError = true := by
  obtain ⟨msi, hnew, -, -, -, herr, -, hptr, -, -⟩ :=
    C2_hasError_iff_handle_null_or_lookup_null buildA scenarioA_withoutCloseHandle
  have hmsi : msi = MsiDll.loaded buildA scenarioA_withoutCloseHandle 268435456 := by
    have := (MsiDll.new_value buildA scenarioA_withoutCloseHandle).symm.trans hnew
    exact (Option.some.inj this).symm
  subst hmsi
  refine ⟨_, hnew, by decide, by decide, ?_⟩
  exact herr.mpr (Or.inr ⟨0, by decide, rfl⟩)

/-- C4: for every package path `p` and every result codes of the two entry points, when the
constructed `MsiDll` has `hasError() = false`, `executeMsiFile(p)` calls `MsiSetInternalUI`
once with `(INSTALLUILEVEL_FULL, NULL)`, then `MsiInstallProduct` once with `(p, "")`, calls no
other entry point, reports no message and returns true; `WinMain`, when its three earlier gates
pass, then returns 0, and neither run depends on the result codes. -/
theorem C4_executeMsiFile_dispatch (B : Build) (P : Platform) (p : tstring) (msi : MsiDll)
    (hnew : (MsiDll.new B P).value = some msi) (herr : msi.hasError = false) :
    executeMsiFile B P p =
        ⟨some true,
          (MsiDll.new B P).events ++
            [Event.MsiSetInternalUI msi.pfnMsiSetInternalUI INSTALLUILEVEL_FULL 0,
             Event.MsiInstallProduct msi.pfnMsiInstallProduct p "",
             Event.FreeLibrary msi.hMsi_]⟩ ∧
      wrapperCalls (executeMsiFile B P p).events =
        [Event.MsiSetInternalUI msi.pfnMsiSetInternalUI INSTALLUILEVEL_FULL 0,
         Event.MsiInstallProduct msi.pfnMsiInstallProduct p ""] ∧
      msi.pfnMsiSetInternalUI ≠ 0 ∧ msi.pfnMsiInstallProduct ≠ 0 ∧
      messages (executeMsiFile B P p).events = [] ∧
      (∀ f g, executeMsiFile B (withResultCodes P f g) p = executeMsiFile B P p) ∧
      (∀ v, (getMsiVersion P).value = some v → ¬ v < 0x200 →
        (getMsiFile B P).value = some p → p ≠ "" → (isFileExists P p).value = some true →
        (WinMain B P).value = some 0 ∧
          ∀ f g, (WinMain B (withResultCodes P f g)).value = some 0) := by
  obtain ⟨hh, h1, h2⟩ := MsiDll.bound_of_not_hasError B P hnew herr
  obtain ⟨hm, hw, -⟩ := MsiDll.new_no_message B P
  have hexec := executeMsiFile_of_not_hasError B P p hnew herr
  refine ⟨hexec, ?_, h1, h2, ?_, fun f g => executeMsiFile_withResultCodes B P f g p, ?_⟩
  · rw [hexec]
    simp only [wrapperCalls_append, hw]
    rfl
  · rw [hexec]
    simp only [messages_append, hm]
    rfl
  · intro v hv hge hp hne hex
    have hattr : P.GetFileAttributes p ≠ INVALID_FILE_ATTRIBUTES := by
      rw [isFileExists_eq] at hex
      simpa using hex
    have hmain : (WinMain B P).value = some 0 := by
      rw [WinMain_of_file_exists B P hv hge hp hne hattr, hexec]
      rfl
    exact ⟨hmain, fun f g => by rw [WinMain_withResultCodes]; exact hmain⟩

/-- C4 at scenario A: `executeMsiFile` returns true after the two calls, in order. -/
theorem C4_executeMsiFile_dispatch_witness :
    (executeMsiFile buildA scenarioA "C:\\Tools\\setup.msi").value = some true ∧
      wrapperCalls (executeMsiFile buildA scenarioA "C:\\Tools\\setup.msi").events =
        [Event.MsiSetInternalUI 268439552 5 0,
         Event.MsiInstallProduct 268439552 "C:\\Tools\\setup.msi" ""] := by
  have h := C4_executeMsiFile_dispatch buildA scenarioA "C:\\Tools\\setup.msi"
    (MsiDll.loaded buildA scenarioA 268435456) (by decide) (by decide)
  exact ⟨by rw [h.1], h.2.1⟩

/-! ## Library handles -/

/-- C9: in every execution of `executeMsiFile`, when loading `msi.dll` gave a non-null handle
exactly one `FreeLibrary` occurs, of that handle, as the last event (after every lookup, message
and wrapper call, on both return paths), and when the load gave null no `FreeLibrary` occurs;
in `getMsiVersion` a successful probe load is followed at once by the one `FreeLibrary` of its
handle, before the version resource is read, and a failed load by none. -/
theorem C9_handle_released_exactly_once (B : Build) (P : Platform) (file : tstring) :
    (∃ b, (executeMsiFile B P file).value = some b) ∧
      (P.LoadLibrary "msi.dll" ≠ 0 →
        frees (executeMsiFile B P file).events = [Event.FreeLibrary (P.LoadLibrary "msi.dll")] ∧
          ∃ body, frees body = [] ∧
            (executeMsiFile B P file).events =
              Event.LoadLibrary "msi.dll" :: body ++
                [Event.FreeLibrary (P.LoadLibrary "msi.dll")]) ∧
      (P.LoadLibrary "msi.dll" = 0 → frees (executeMsiFile B P file).events = []) ∧
      (systemDirectoryOf P ≠ "" → P.LoadLibrary (pathMsiDllOf P) ≠ 0 →
        frees (getMsiVersion P).events = [Event.FreeLibrary (P.LoadLibrary (pathMsiDllOf P))] ∧
          frees (getFileVersionNumberMS P (pathMsiDllOf P) 0).events = [] ∧
          (getMsiVersion P).events =
            [Event.GetSystemDirectory MAX_PATH, Event.LoadLibrary (pathMsiDllOf P),
              Event.FreeLibrary (P.LoadLibrary (pathMsiDllOf P))] ++
              (getFileVersionNumberMS P (pathMsiDllOf P) 0).events) ∧
      (systemDirectoryOf P ≠ "" → P.LoadLibrary (pathMsiDllOf P) = 0 →
        (getMsiVersion P).events =
          [Event.GetSystemDirectory MAX_PATH, Event.LoadLibrary (pathMsiDllOf P)]) ∧
      (systemDirectoryOf P = "" → (getMsiVersion P).events = [Event.GetSystemDirectory MAX_PATH]) := by
  obtain ⟨body, hbody, hev⟩ := executeMsiFile_events B P file
  have hver := frees_of_queries (getFileVersionNumberMS_events P (pathMsiDllOf P) 0)
  refine ⟨executeMsiFile_value_isSome B P file, ?_, ?_, ?_, ?_, ?_⟩
  · intro h0
    rw [if_neg h0] at hev
    refine ⟨?_, body, hbody, hev⟩
    rw [hev, List.cons_append, ← List.singleton_append, frees_append, frees_append, hbody]
    rfl
  · intro h0
    rw [if_pos h0, List.append_nil] at hev
    rw [hev, ← List.singleton_append, frees_append, hbody]
    rfl
  · intro hdir hload
    have hev := getMsiVersion_events P
    rw [if_neg hdir, if_neg hload] at hev
    refine ⟨?_, hver, hev⟩
    rw [hev]
    generalize (getFileVersionNumberMS P (pathMsiDllOf P) 0).events = vs at hver
    simpa [frees, Event.isFreeLibrary, List.filter_cons] using hver
  · intro hdir hload
    have hev := getMsiVersion_events P
    rw [if_neg hdir, if_pos hload] at hev
    exact hev
  · intro hdir
    have hev := getMsiVersion_events P
    rw [if_pos hdir] at hev
    exact hev

/-- C9 at scenario A: the binder's handle is freed once, last, and the probe's handle is freed
once, before the version is read. -/
theorem C9_handle_released_witness :
    frees (executeMsiFile buildA scenarioA "C:\\Tools\\setup.msi").events =
        [Event.FreeLibrary 268435456] ∧
      frees (getMsiVersion scenarioA).events = [Event.FreeLibrary 268435456] := by
  have h := C9_handle_released_exactly_once buildA scenarioA "C:\\Tools\\setup.msi"
  exact ⟨(h.2.1 (by decide)).1, (h.2.2.2.1 (by decide) (by decide)).1⟩

/-! ## The version probe -/

/-- C7: on a platform whose `GetSystemDirectory` fills the buffer with a non-empty string
whenever it reports a length in `1..MAX_PATH`, `getMsiVersion` returns what the reference
definition gives (0 if the reported length is 0 or greater than `MAX_PATH`, otherwise 0 if the
load fails, otherwise the version number of the file with fallback 0), and
`getFileVersionNumberMS` returns `dwFileVersionMS` exactly when the size is positive, the info
is read, the root query succeeds and the reported size is at least `sizeof(VS_FIXEDFILEINFO)`,
and the fallback unchanged in every other case. -/
theorem C7_getMsiVersion_refines_reference (P : Platform)
    (hdir : (P.GetSystemDirectory MAX_PATH).1 ≠ 0 → (P.GetSystemDirectory MAX_PATH).1 ≤ MAX_PATH →
      (P.GetSystemDirectory MAX_PATH).2 ≠ "") :
    (getMsiVersion P).value = some (getMsiVersion_reference P) ∧
      ∀ path fallback,
        (getFileVersionNumberMS P path fallback).value =
            some (getFileVersionNumberMS_reference P path fallback) ∧
          (getFileVersionNumberMS_reference P path fallback =
              (P.VerQueryValue (P.GetFileVersionInfo path (P.GetFileVersionInfoSize path).2
                (P.GetFileVersionInfoSize path).1).2 "\\").2.1.dwFileVersionMS ∨
            getFileVersionNumberMS_reference P path fallback = fallback) := by
  refine ⟨?_, fun path fallback => ⟨getFileVersionNumberMS_value P path fallback, ?_⟩⟩
  · rw [getMsiVersion_value]
    unfold getMsiVersion_reference pathMsiDllOf systemDirectoryOf
    by_cases hlen : (P.GetSystemDirectory MAX_PATH).1 = 0 ∨ (P.GetSystemDirectory MAX_PATH).1 > MAX_PATH
    · simp [hlen]
    · have hne : (P.GetSystemDirectory MAX_PATH).2 ≠ "" :=
        hdir (fun h => hlen (Or.inl h)) (Nat.le_of_not_lt fun h => hlen (Or.inr h))
      simp only [if_neg hlen, if_neg hne]
  · unfold getFileVersionNumberMS_reference
    simp only
    split_ifs
    · exact Or.inl rfl
    · exact Or.inr rfl

/-- C7 at scenario A: the probe returns the version 2.0 of the installer. -/
theorem C7_getMsiVersion_refines_reference_witness :
    (getMsiVersion scenarioA).value = some 0x20000 :=
  (C7_getMsiVersion_refines_reference scenarioA (fun _ _ => by decide)).1

/-! ## The version gate -/

/-- C1, as stated, fails: with the probed version `0x0001FFFF`, below `0x00020000`, the version
gate of `WinMain` passes. -/
theorem C1_gate_passes_below_2_0 :
    (getMsiVersion (installerVersion 0x1FFFF)).value = some 0x1FFFF ∧
      ¬ (0x20000 ≤ 0x1FFFF) ∧
      versionGatePasses buildA (installerVersion 0x1FFFF) ∧
      ¬ versionGateFails buildA (installerVersion 0x1FFFF) := by
  decide

/-- C1, amended: for every probed version value `v` below `0x80000000`, the version gate of
`WinMain` passes iff `v ≥ 0x200`, and fails (the not-found message is reported and nothing
further is done) iff `v < 0x200`. -/
theorem C1_gate_threshold (B : Build) (P : Platform) (v : Nat) (hsigned : v < 0x80000000)
    (hv : (getMsiVersion P).value = some (toInt v)) :
    (versionGatePasses B P ↔ 0x200 ≤ v) ∧ (versionGateFails B P ↔ v < 0x200) := by
  have hint : toInt v = (v : Int) := toInt_of_lt hsigned
  rw [versionGatePasses_iff B P hv, versionGateFails_iff B P hv, hint]
  constructor <;> omega

/-- C1, amended, at the boundary of the specification: both `0x00020000` and `0x0001FFFF` pass
the gate. -/
theorem C1_gate_threshold_witness :
    versionGatePasses buildA (installerVersion 0x20000) ∧
      versionGatePasses buildA (installerVersion 0x1FFFF) :=
  ⟨(C1_gate_threshold buildA (installerVersion 0x20000) 0x20000 (by decide) (by decide)).1.mpr
      (by decide),
    (C1_gate_threshold buildA (installerVersion 0x1FFFF) 0x1FFFF (by decide) (by decide)).1.mpr
      (by decide)⟩

/-- C10: `getMsiVersion` returns the 32-bit value the probe reads, converted to `int`, and
for every such value `v` the gate of `WinMain` passes iff `0x200 ≤ v ≤ 0x7FFFFFFF`: every
`v < 0x200` fails and every `v ≥ 0x80000000` fails, being negative as an `int`. -/
theorem C10_gate_is_signed_0x200 (B : Build) (P : Platform) :
    (getMsiVersion P).value = some (toInt (probedVersion P)) ∧
      ∀ v : Nat, v < 0x100000000 → (getMsiVersion P).value = some (toInt v) →
        (toInt v = if v < 0x80000000 then (v : Int) else (v : Int) - 0x100000000) ∧
          (versionGatePasses B P ↔ 0x200 ≤ v ∧ v ≤ 0x7FFFFFFF) ∧
          (versionGateFails B P ↔ v < 0x200 ∨ 0x80000000 ≤ v) := by
  refine ⟨getMsiVersion_probedVersion P, fun v h32 hv => ⟨?_, ?_, ?_⟩⟩
  · split_ifs with h
    · exact toInt_of_lt h
    · exact toInt_of_ge (by omega) h32
  · rw [versionGatePasses_iff B P hv, toInt_lt_iff h32]
    omega
  · rw [versionGateFails_iff B P hv, toInt_lt_iff h32]

/-- C10 at four versions: `0x0001FFFF` and `0x00010000` pass, `0` and `0x80000000` fail. -/
theorem C10_gate_is_signed_0x200_witness :
    versionGatePasses buildA (installerVersion 0x1FFFF) ∧
      versionGatePasses buildA (installerVersion 0x10000) ∧
      versionGateFails buildA (installerVersion 0) ∧
      versionGateFails buildA (installerVersion 0x80000000) ∧
      (getMsiVersion (installerVersion 0x80000000)).value = some (-2147483648) :=
  ⟨((C10_gate_is_signed_0x200 buildA (installerVersion 0x1FFFF)).2 0x1FFFF (by decide)
      (by decide)).2.1.mpr (by decide),
    ((C10_gate_is_signed_0x200 buildA (installerVersion 0x10000)).2 0x10000 (by decide)
      (by decide)).2.1.mpr (by decide),
    ((C10_gate_is_signed_0x200 buildA (installerVersion 0)).2 0 (by decide)
      (by decide)).2.2.mpr (by decide),
    ((C10_gate_is_signed_0x200 buildA (installerVersion 0x80000000)).2 0x80000000 (by decide)
      (by decide)).2.2.mpr (by decide),
    by decide⟩

/-! ## The gates of `WinMain` -/

/-- C3: `WinMain` checks its gates in the order version, package path, package existence,
binding; whenever one of them fails (the earlier ones having passed) exactly one message is
reported, the one of that gate, the run stops there (the trace is given in full), no wrapper is
called and `WinMain` returns 0.  In particular a probe that returns 0 gives the not-found
message, and an `msi.dll` that does not load gives the binding message with no wrapper call. -/
theorem C3_first_failing_gate_reports_and_stops (B : Build) (P : Platform) (v : Int)
    (hv : (getMsiVersion P).value = some v) :
    (v < 0x200 →
      WinMain B P = ⟨some 0, (getMsiVersion P).events ++ [errorBox msgInstallerNotFound]⟩ ∧
        messages (WinMain B P).events = [msgInstallerNotFound] ∧
        wrapperCalls (WinMain B P).events = []) ∧
    (¬ v < 0x200 → (getMsiFile B P).value = some "" →
      WinMain B P =
          ⟨some 0, (getMsiVersion P).events ++ ((getMsiFile B P).events ++
            [errorBox msgPathUnresolved])⟩ ∧
        messages (WinMain B P).events = [msgPathUnresolved] ∧
        wrapperCalls (WinMain B P).events = []) ∧
    (∀ p, ¬ v < 0x200 → (getMsiFile B P).value = some p → p ≠ "" →
      (isFileExists P p).value = some false →
      WinMain B P =
          ⟨some 0, (getMsiVersion P).events ++ ((getMsiFile B P).events ++
            [Event.GetFileAttributes p, errorBox (msgFileMissing ++ p)])⟩ ∧
        messages (WinMain B P).events = [msgFileMissing ++ p] ∧
        wrapperCalls (WinMain B P).events = []) ∧
    (∀ p msi, ¬ v < 0x200 → (getMsiFile B P).value = some p → p ≠ "" →
      (isFileExists P p).value = some true →
      (MsiDll.new B P).value = some msi → msi.hasError = true →
      WinMain B P =
          ⟨some 0, (getMsiVersion P).events ++ ((getMsiFile B P).events ++
            Event.GetFileAttributes p :: ((MsiDll.new B P).events ++
              errorBox msgBindingFailed ::
                (if msi.hMsi_ = 0 then [] else [Event.FreeLibrary msi.hMsi_])))⟩ ∧
        messages (WinMain B P).events = [msgBindingFailed] ∧
        wrapperCalls (WinMain B P).events = []) ∧
    (v = 0 → messages (WinMain B P).events = [msgInstallerNotFound]) ∧
    (∀ p, ¬ v < 0x200 → (getMsiFile B P).value = some p → p ≠ "" →
      (isFileExists P p).value = some true → P.LoadLibrary "msi.dll" = 0 →
      (WinMain B P).value = some 0 ∧ messages (WinMain B P).events = [msgBindingFailed] ∧
        wrapperCalls (WinMain B P).events = []) := by
  have hm1 := messages_getMsiVersion P
  have hw1 := wrapperCalls_getMsiVersion P
  have hm2 := messages_getMsiFile B P
  have hw2 := wrapperCalls_getMsiFile B P
  have gate1 : v < 0x200 →
      WinMain B P = ⟨some 0, (getMsiVersion P).events ++ [errorBox msgInstallerNotFound]⟩ ∧
        messages (WinMain B P).events = [msgInstallerNotFound] ∧
        wrapperCalls (WinMain B P).events = [] := by
    intro hlt
    have h := WinMain_of_version_lt B P hv hlt
    refine ⟨h, ?_, ?_⟩
    · rw [h]
      simp only [messages_append, hm1]
      rfl
    · rw [h]
      simp only [wrapperCalls_append, hw1]
      rfl
  have gate4 : ∀ p msi, ¬ v < 0x200 → (getMsiFile B P).value = some p → p ≠ "" →
      (isFileExists P p).value = some true →
      (MsiDll.new B P).value = some msi → msi.hasError = true →
      WinMain B P =
          ⟨some 0, (getMsiVersion P).events ++ ((getMsiFile B P).events ++
            Event.GetFileAttributes p :: ((MsiDll.new B P).events ++
              errorBox msgBindingFailed ::
                (if msi.hMsi_ = 0 then [] else [Event.FreeLibrary msi.hMsi_])))⟩ ∧
        messages (WinMain B P).events = [msgBindingFailed] ∧
        wrapperCalls (WinMain B P).events = [] := by
    intro p msi hge hp hne hex hnew herr
    have hattr : P.GetFileAttributes p ≠ INVALID_FILE_ATTRIBUTES := by
      rw [isFileExists_eq] at hex
      simpa using hex
    have h := WinMain_of_file_exists B P hv hge hp hne hattr
    have hmx := messages_executeMsiFile B P p hnew
    have hwx := wrapperCalls_executeMsiFile_of_hasError B P p hnew herr
    rw [if_pos herr] at hmx
    refine ⟨?_, ?_, ?_⟩
    · rw [h, executeMsiFile_of_hasError B P p hnew herr]
      rfl
    · rw [h]
      simp only [messages_append, hm1, hm2, ← List.singleton_append (l := (executeMsiFile B P p).events),
        hmx]
      rfl
    · rw [h]
      simp only [wrapperCalls_append, hw1, hw2,
        ← List.singleton_append (l := (executeMsiFile B P p).events), hwx]
      rfl
  refine ⟨gate1, ?_, ?_, gate4, ?_, ?_⟩
  · intro hge hp
    have h := WinMain_of_path_empty B P hv hge hp
    refine ⟨h, ?_, ?_⟩
    · rw [h]
      simp only [messages_append, hm1, hm2]
      rfl
    · rw [h]
      simp only [wrapperCalls_append, hw1, hw2]
      rfl
  · intro p hge hp hne hex
    have hattr : P.GetFileAttributes p = INVALID_FILE_ATTRIBUTES := by
      rw [isFileExists_eq] at hex
      simpa using hex
    have h := WinMain_of_file_missing B P hv hge hp hne hattr
    refine ⟨h, ?_, ?_⟩
    · rw [h]
      simp only [messages_append, hm1, hm2]
      rfl
    · rw [h]
      simp only [wrapperCalls_append, hw1, hw2]
      rfl
  · intro h0
    exact (gate1 (by rw [h0]; decide)).2.1
  · intro p hge hp hne hex hload
    have hnew := MsiDll.new_value B P
    rw [if_pos hload] at hnew
    obtain ⟨h, hm, hw⟩ := gate4 p MsiDll.unloaded hge hp hne hex hnew MsiDll.hasError_unloaded
    exact ⟨by rw [h], hm, hw⟩

/-- C3 at four machines, one per gate: each run reports the message of its failing gate only. -/
theorem C3_first_failing_gate_witness :
    messages (WinMain buildA scenarioB).events = [msgInstallerNotFound] ∧
      messages (WinMain buildA scenarioA_withoutResource).events = [msgPathUnresolved] ∧
      messages (WinMain buildA scenarioC).events = [msgFileMissing ++ "C:\\Tools\\setup.msi"] ∧
      messages (WinMain buildA scenarioA_bindingUnloadable).events = [msgBindingFailed] ∧
      wrapperCalls (WinMain buildA scenarioA_bindingUnloadable).events = [] :=
  ⟨((C3_first_failing_gate_reports_and_stops buildA scenarioB 0 (by decide)).1
      (by decide)).2.1,
    ((C3_first_failing_gate_reports_and_stops buildA scenarioA_withoutResource 0x20000
      (by decide)).2.1 (by decide) (by decide)).2.1,
    ((C3_first_failing_gate_reports_and_stops buildA scenarioC 0x20000
      (by decide)).2.2.1 "C:\\Tools\\setup.msi" (by decide) (by decide) (by decide)
      (by decide)).2.1,
    ((C3_first_failing_gate_reports_and_stops buildA scenarioA_bindingUnloadable 0x20000
      (by decide)).2.2.2.2.2 "C:\\Tools\\setup.msi" (by decide) (by decide) (by decide)
      (by decide) (by decide)).2.1,
    ((C3_first_failing_gate_reports_and_stops buildA scenarioA_bindingUnloadable 0x20000
      (by decide)).2.2.2.2.2 "C:\\Tools\\setup.msi" (by decide) (by decide) (by decide)
      (by decide) (by decide)).2.2⟩

/-- C8: for every path `p`, when the version gate passes, `getMsiFile` returns the non-empty `p`
and the existence check on `p` is false, `WinMain` reports exactly one message, the fixed
text followed by `p` unmodified, never loads `msi.dll` for binding, looks up no symbol, calls
no wrapper and returns 0. -/
theorem C8_missing_package_reported_with_path (B : Build) (P : Platform) (v : Int) (p : tstring)
    (hv : (getMsiVersion P).value = some v) (hge : ¬ v < 0x200)
    (hp : (getMsiFile B P).value = some p) (hne : p ≠ "")
    (hex : (isFileExists P p).value = some false) :
    (WinMain B P).value = some 0 ∧
      messages (WinMain B P).events = [msgFileMissing ++ p] ∧
      (msgFileMissing ++ p).data = msgFileMissing.data ++ p.data ∧
      p.data <:+ (msgFileMissing ++ p).data ∧
      Event.LoadLibrary "msi.dll" ∉ (WinMain B P).events ∧
      wrapperCalls (WinMain B P).events = [] ∧
      (WinMain B P).events =
        (getMsiVersion P).events ++ ((getMsiFile B P).events ++
          [Event.GetFileAttributes p, errorBox (msgFileMissing ++ p)]) := by
  have hattr : P.GetFileAttributes p = INVALID_FILE_ATTRIBUTES := by
    rw [isFileExists_eq] at hex
    simpa using hex
  have h := WinMain_of_file_missing B P hv hge hp hne hattr
  have hl1 := binding_load_not_mem_getMsiVersion P
  have hl2 : Event.LoadLibrary "msi.dll" ∉ (getMsiFile B P).events :=
    not_mem_of_queries (getMsiFile_queries B P) rfl
  refine ⟨by rw [h], ?_, String.data_append _ _, ?_, ?_, ?_, by rw [h]⟩
  · rw [h]
    simp only [messages_append, messages_getMsiVersion, messages_getMsiFile]
    rfl
  · rw [String.data_append]
    exact List.suffix_append _ _
  · rw [h]
    simp [hl1, hl2, errorBox]
  · rw [h]
    simp only [wrapperCalls_append, wrapperCalls_getMsiVersion, wrapperCalls_getMsiFile]
    rfl

/-- C8 at scenario C: the one message ends with the path of the missing package. -/
theorem C8_missing_package_witness :
    messages (WinMain buildA scenarioC).events = [msgFileMissing ++ "C:\\Tools\\setup.msi"] ∧
      Event.LoadLibrary "msi.dll" ∉ (WinMain buildA scenarioC).events :=
  have h := C8_missing_package_reported_with_path buildA scenarioC 0x20000
    "C:\\Tools\\setup.msi" (by decide) (by decide) (by decide) (by decide) (by decide)
  ⟨h.2.1, h.2.2.2.2.1⟩

/-! ## The end-to-end scenario A -/

/-- C5, as stated, fails: in scenario A with the version probe at `0x00020000`, the package
`C:\Tools\setup.msi` resolved and present, `msi.dll` loaded and the two required entry points
resolved, but the optional `MsiCloseHandle` unresolved, `WinMain` reports the binding failure
and calls neither entry point. -/
theorem C5_optional_symbol_blocks_dispatch :
    (getMsiVersion scenarioA_withoutCloseHandle).value = some 0x20000 ∧
      (getMsiFile buildA scenarioA_withoutCloseHandle).value = some "C:\\Tools\\setup.msi" ∧
      (isFileExists scenarioA_withoutCloseHandle "C:\\Tools\\setup.msi").value = some true ∧
      scenarioA_withoutCloseHandle.LoadLibrary "msi.dll" ≠ 0 ∧
      scenarioA_withoutCloseHandle.GetProcAddress
        (scenarioA_withoutCloseHandle.LoadLibrary "msi.dll") "MsiSetInternalUI" ≠ 0 ∧
      scenarioA_withoutCloseHandle.GetProcAddress
        (scenarioA_withoutCloseHandle.LoadLibrary "msi.dll") "MsiInstallProductA" ≠ 0 ∧
      wrapperCalls (WinMain buildA scenarioA_withoutCloseHandle).events = [] ∧
      messages (WinMain buildA scenarioA_withoutCloseHandle).events = [msgBindingFailed] := by
  decide

/-- C5, amended: whenever the version probe returns `0x00020000`, the package name resource
resolves to `setup.msi`, the executable directory is `C:\Tools\`, the file
`C:\Tools\setup.msi` exists, `msi.dll` loads and all eleven entry points the binder looks up
resolve, `WinMain` reports nothing, calls `MsiSetInternalUI` exactly once, then
`MsiInstallProduct` exactly once with the path `C:\Tools\setup.msi` and an empty command line,
and returns 0. -/
theorem C5_scenarioA_dispatches (B : Build) (P : Platform) (modulePath : tstring)
    (hv : (getMsiVersion P).value = some 0x20000)
    (hname : (loadStringResource P B.IDS_MSI_FILENAME).value = some "setup.msi")
    (hmod : (getCurrentModulePath P).value = some modulePath) (hmodne : modulePath ≠ "")
    (hdir : (getFullPathDirectoryPart P modulePath).value = some "C:\\Tools\\")
    (hex : (isFileExists P "C:\\Tools\\setup.msi").value = some true)
    (hload : P.LoadLibrary "msi.dll" ≠ 0)
    (hall : ∀ name ∈ symbolNames B, P.GetProcAddress (P.LoadLibrary "msi.dll") name ≠ 0) :
    (WinMain B P).value = some 0 ∧
      messages (WinMain B P).events = [] ∧
      wrapperCalls (WinMain B P).events =
        [Event.MsiSetInternalUI (P.GetProcAddress (P.LoadLibrary "msi.dll") "MsiSetInternalUI")
            INSTALLUILEVEL_FULL 0,
         Event.MsiInstallProduct
            (P.GetProcAddress (P.LoadLibrary "msi.dll") ("MsiInstallProduct" ++ MSIAPI_SUFFIX B))
            "C:\\Tools\\setup.msi" ""] := by
  have hmodule : currentModulePathOf P = modulePath := by
    rw [getCurrentModulePath_eq] at hmod
    exact Option.some.inj hmod
  have hfile : msiFileNameOf B P = "setup.msi" := by
    rw [loadStringResource_eq] at hname
    exact Option.some.inj hname
  have hp : (getMsiFile B P).value = some "C:\\Tools\\setup.msi" := by
    rw [getMsiFile_value, hmodule, hfile, if_neg hmodne, if_neg (by decide), hdir]
    decide
  have hattr : P.GetFileAttributes "C:\\Tools\\setup.msi" ≠ INVALID_FILE_ATTRIBUTES := by
    rw [isFileExists_eq] at hex
    simpa using hex
  have hnew := MsiDll.new_of_loaded B P hload
  have hval : (MsiDll.new B P).value = some (MsiDll.loaded B P (P.LoadLibrary "msi.dll")) := by
    rw [hnew]
  have herr : (MsiDll.loaded B P (P.LoadLibrary "msi.dll")).hasError = false := by
    cases h : (MsiDll.loaded B P (P.LoadLibrary "msi.dll")).hasError with
    | false => rfl
    | true =>
      rcases (MsiDll.hasError_loaded B P _).mp h with h0 | ⟨name, hmem, hnull⟩
      · exact absurd h0 hload
      · exact absurd hnull (hall name hmem)
  have hexec := executeMsiFile_of_not_hasError B P "C:\\Tools\\setup.msi" hval herr
  obtain ⟨hm, hw, -⟩ := MsiDll.new_no_message B P
  have hmain := WinMain_of_file_exists B P hv (by decide) hp (by decide) hattr
  rw [hexec] at hmain
  refine ⟨by rw [hmain]; rfl, ?_, ?_⟩
  · rw [hmain]
    simp only [messages_append, messages_getMsiVersion, messages_getMsiFile,
      ← List.singleton_append (l := (MsiDll.new B P).events ++ _), hm]
    rfl
  · rw [hmain]
    simp only [wrapperCalls_append, wrapperCalls_getMsiVersion, wrapperCalls_getMsiFile,
      ← List.singleton_append (l := (MsiDll.new B P).events ++ _), hw]
    rfl

/-- C5, amended, at scenario A: the two calls, in order, with the path of the package. -/
theorem C5_scenarioA_dispatches_witness :
    (WinMain buildA scenarioA).value = some 0 ∧
      messages (WinMain buildA scenarioA).events = [] ∧
      wrapperCalls (WinMain buildA scenarioA).events =
        [Event.MsiSetInternalUI 268439552 5 0,
         Event.MsiInstallProduct 268439552 "C:\\Tools\\setup.msi" ""] :=
  C5_scenarioA_dispatches buildA scenarioA "C:\\Tools\\app.exe" (by decide) (by decide)
    (by decide) (by decide) (by decide) (by decide) (by decide) (by decide)

/-! ## The package path -/

end SimpleMsiBootstrapper
